import Mathlib

/-!
Shallow embedding of `src/HttpBase.ts` (the `HttpBase` class of
njleonzhang/network-base).

Modelling conventions:
  * JavaScript `undefined` for an optional value is `Option.none`.
  * A duck-typed loading indicator `{show?, hide?}` is a `LoadingObj`
    recording which of the two methods are present (a present method is a
    function and hence truthy; an absent one is `undefined`).
  * The per-call `showError` option is three-valued, mirroring the
    source's truthiness tests: a supplied function (truthy), an
    explicitly supplied falsy value, or not supplied (`undefined`).
  * Side effects (calling a loading indicator, an error-display callback,
    or the global server-error handler) are recorded as an `Event` trace
    in the order the source performs them.
  * A rejection is a `Thrown` value: `Thrown.serverEx` models the
    `ServerException` class (which carries a `{code, msg}` payload), and
    `Thrown.raw` models any other JavaScript error crossing the boundary.
  * The outcome of the axios transport call is an input
    (`TransportResult`): either a well-formed `{code, msg, data}`
    envelope, or an axios-style error with optional `response.status`,
    `code` and `message` fields.
  * Header providers (`config.headers`) carry their resolution outcome as
    data: `Except.error` models a token getter that throws/rejects.
-/

/-- The `{code, msg}` payload carried by a `ServerException`. -/
structure ErrPayload where
  code : String
  msg : String
deriving DecidableEq, Repr

/-- A duck-typed loading indicator: which of `show` / `hide` are present. -/
structure LoadingObj where
  hasShow : Bool
  hasHide : Bool
deriving DecidableEq, Repr

/-- The per-call `showError` option, keeping the source's three-way
truthiness distinction. -/
inductive ShowErrorOpt where
  | provided
  | explicitEmpty
  | notSupplied
deriving DecidableEq, Repr

/-- A JavaScript error value reaching `handleError`: either a
`ServerException`, or any other error with optional `response.status`,
`code` and `message` fields. -/
inductive JsError where
  | serverEx (payload : ErrPayload)
  | other (responseStatus : Option Nat) (errCode : Option String) (errMessage : Option String)
deriving DecidableEq, Repr

/-- A configured header provider; `value` is the outcome of resolving its
`get` member (`Except.error` models a getter that throws or rejects). -/
structure HeaderProvider where
  key : String
  postOnly : Bool
  value : Except JsError String

/-- The global configuration (`IHttpGlobalConfig`).  Callbacks are modelled
by their presence: `showError` / `handleServerError` record whether the
corresponding global callback is configured. -/
structure GlobalConfig where
  serverBase : String
  serverPort : Option String
  timeout : Option Nat
  showError : Bool
  loading : Option LoadingObj
  handleServerError : Bool
  headers : List HeaderProvider

/-- The per-call options object (`IHttpOptions`). -/
structure HttpOptions where
  timeout : Option Nat
  params : Option String
  showError : ShowErrorOpt
  loading : Option LoadingObj
  skipServerErrorHandler : Option Bool
deriving DecidableEq, Repr

/-- An observable side effect of a call, in execution order. -/
inductive Event where
  | perCallShow
  | globalShow
  | perCallHide
  | globalHide
  | perCallShowError (msg : String)
  | globalShowError (msg : String)
  | serverErrorHandler (payload : ErrPayload)
deriving DecidableEq, Repr

/-- What a rejected call throws: the structured `ServerException`, or any
other raw error escaping the boundary. -/
inductive Thrown where
  | serverEx (payload : ErrPayload)
  | raw (err : JsError)
deriving DecidableEq, Repr

/-- The server response envelope `{code, msg, data}` (`ZyWebRes`). -/
structure Envelope (T : Type) where
  code : String
  msg : String
  data : T

/-- The outcome of the axios transport call, supplied as an input. -/
inductive TransportResult (T : Type) where
  | success (res : Envelope T)
  | failure (responseStatus : Option Nat) (errCode : Option String) (errMessage : Option String)

/-- Truthiness of `loading && loading.cap` for a capability selector. -/
def hasCap (loading : Option LoadingObj) (cap : LoadingObj → Bool) : Bool :=
  match loading with
  | some l => cap l
  | none => false

/-- JavaScript `url.endsWith('/')`. -/
def jsEndsWithSlash (s : String) : Bool :=
  s.data.getLast? == some '/'

/-- JavaScript `x || y || 5000` for numeric timeouts (`0` is falsy). -/
def jsOrNat (o : Option Nat) (fallback : Nat) : Nat :=
  match o with
  | some t => if t = 0 then fallback else t
  | none => fallback

namespace HttpBase

/-- The constructor's `serverFullPath` field:
`config.serverPort ? base + ":" + port + "/" : base`. -/
def serverFullPath (serverBase : String) (serverPort : Option String) : String :=
  match serverPort with
  | some port => serverBase ++ ":" ++ port ++ "/"
  | none => serverBase

/-- The request URL built in `httpBase`:
`serverFullPath + url + (url.endsWith('/') ? '' : '/')`. -/
def buildUrl (fullPath url : String) : String :=
  fullPath ++ url ++ (if jsEndsWithSlash url then "" else "/")

/-- The `showError` method: per-call callback if truthy, else the global
one when the per-call option is exactly `undefined` and a global callback
is configured. -/
def showError (cfg : GlobalConfig) (msg : String) (showErrorArg : ShowErrorOpt) : List Event :=
  match showErrorArg with
  | .provided => [Event.perCallShowError msg]
  | .notSupplied => if cfg.showError then [Event.globalShowError msg] else []
  | .explicitEmpty => []

/-- The `showLoading` method. -/
def showLoading (cfg : GlobalConfig) (loading : Option LoadingObj) : List Event :=
  if hasCap loading (·.hasShow) then
    [Event.perCallShow]
  else if (loading.isNone || (loading.isSome && !(hasCap loading (·.hasShow))))
      && hasCap cfg.loading (·.hasShow) then
    [Event.globalShow]
  else
    []

/-- The `hideLoading` method.  The fallback guard tests the per-call
indicator's SHOW capability (`loading.show === undefined`), exactly as the
source does. -/
def hideLoading (cfg : GlobalConfig) (loading : Option LoadingObj) : List Event :=
  if hasCap loading (·.hasHide) then
    [Event.perCallHide]
  else if (loading.isNone || (loading.isSome && !(hasCap loading (·.hasShow))))
      && hasCap cfg.loading (·.hasHide) then
    [Event.globalHide]
  else
    []

/-- The `handleError` method: returns what it throws together with the
side effects it performs, in order. -/
def handleError (cfg : GlobalConfig) (err : JsError) (showErrorArg : ShowErrorOpt)
    (skipServerErrorHandler : Bool) : Thrown × List Event :=
  match err with
  | .serverEx payload =>
    (Thrown.serverEx payload,
      showError cfg payload.msg showErrorArg
        ++ (if !skipServerErrorHandler && cfg.handleServerError then
              [Event.serverErrorHandler payload]
            else []))
  | .other responseStatus errCode errMessage =>
    let cm : String × String :=
      match responseStatus with
      | some status =>
        let family := status / 100
        if family = 5 then ("SERVER_INTERNAL_ERROR", "服务器内部错误")
        else if family = 4 then ("URL_NOT_FOUND", "URL找不到")
        else ("UNKNOWN_ERROR", "未知错误")
      | none =>
        if errCode = some "ECONNABORTED" then ("ECONNABORTED", "网络超时")
        else if errMessage = some "Network Error" then
          ("NETWORK_ERROR", "无网络, 请检查您的网络连接")
        else ("UNKNOWN_ERROR", "未知错误")
    (Thrown.serverEx ⟨cm.1, cm.2⟩, showError cfg cm.2 showErrorArg)

/-- First applicable header provider whose resolution fails, if any.
`(token.postOnly && method === 'post') || !token.postOnly` selects the
applicable providers. -/
def firstHeaderError (method : String) : List HeaderProvider → Option JsError
  | [] => none
  | h :: rest =>
    if (h.postOnly && method == "post") || !h.postOnly then
      match h.value with
      | .error e => some e
      | .ok _ => firstHeaderError method rest
    else
      firstHeaderError method rest

/-- Everything a call to `httpBase` produces or leaves behind. -/
structure CallResult (R T : Type) where
  options : HttpOptions
  result : Except Thrown T
  events : List Event
  url : String
  timeout : Nat
  sentBody : Option R

/-- The `httpBase` method.  The options object is mutated first
(`options.skipServerErrorHandler = options.skipServerErrorHandler || false`);
a failing header resolution routes through `handleError` before the
try/finally, so no loading events occur on that path; otherwise loading is
shown, the transport outcome is examined (`code !== 'OK'` throws a
`ServerException` carrying the envelope), errors route through
`handleError`, and `hideLoading` runs in the `finally` block. -/
def httpBase {R T : Type} (cfg : GlobalConfig) (method : String) (url : String) (data : R)
    (options : HttpOptions) (transport : TransportResult T) : CallResult R T :=
  let skip := options.skipServerErrorHandler.getD false
  let mutated : HttpOptions := { options with skipServerErrorHandler := some skip }
  let requestUrl := buildUrl (serverFullPath cfg.serverBase cfg.serverPort) url
  let requestTimeout := jsOrNat options.timeout (jsOrNat cfg.timeout 5000)
  let sentBody : Option R := if method == "post" then some data else none
  match firstHeaderError method cfg.headers with
  | some e =>
    let he := handleError cfg e mutated.showError skip
    { options := mutated, result := Except.error he.1, events := he.2,
      url := requestUrl, timeout := requestTimeout, sentBody := sentBody }
  | none =>
    let main : Except Thrown T × List Event :=
      match transport with
      | .success res =>
        if res.code ≠ "OK" then
          let he := handleError cfg (JsError.serverEx ⟨res.code, res.msg⟩) mutated.showError skip
          (Except.error he.1, he.2)
        else
          (Except.ok res.data, [])
      | .failure responseStatus errCode errMessage =>
        let he := handleError cfg (JsError.other responseStatus errCode errMessage)
          mutated.showError skip
        (Except.error he.1, he.2)
    { options := mutated,
      result := main.1,
      events := showLoading cfg mutated.loading ++ main.2 ++ hideLoading cfg mutated.loading,
      url := requestUrl, timeout := requestTimeout, sentBody := sentBody }

/-- `get<T>(url, options)` — dispatches with method `'get'` and `null` body. -/
def get {T : Type} (cfg : GlobalConfig) (url : String) (options : HttpOptions)
    (transport : TransportResult T) : CallResult Unit T :=
  httpBase cfg "get" url () options transport

/-- `post<R, T>(url, data, options)`. -/
def post {R T : Type} (cfg : GlobalConfig) (url : String) (data : R) (options : HttpOptions)
    (transport : TransportResult T) : CallResult R T :=
  httpBase cfg "post" url data options transport

end HttpBase

/-- Event classifier: a loading `show` invocation. -/
def isShowEvent : Event → Bool
  | .perCallShow | .globalShow => true
  | _ => false

/-- Event classifier: a loading `hide` invocation. -/
def isHideEvent : Event → Bool
  | .perCallHide | .globalHide => true
  | _ => false

/-- Event classifier: an error-display callback invocation. -/
def isDisplayEvent : Event → Bool
  | .perCallShowError _ | .globalShowError _ => true
  | _ => false

/-- Event classifier: a global server-error handler invocation. -/
def isHandlerEvent : Event → Bool
  | .serverErrorHandler _ => true
  | _ => false

section Helpers

/-- `handleError` always throws a `ServerException`, on both of its
branches. -/
theorem handleError_thrown_serverEx (cfg : GlobalConfig) (e : JsError) (opt : ShowErrorOpt)
    (skip : Bool) :
    ∃ p, (HttpBase.handleError cfg e opt skip).1 = Thrown.serverEx p := by
  cases e with
  | serverEx p => exact ⟨p, rfl⟩
  | other rs c m => exact ⟨_, rfl⟩

/-- Rejections of the dispatcher itself are always `ServerException`s. -/
theorem httpBase_result_shape {R T : Type} (cfg : GlobalConfig) (method url : String) (data : R)
    (options : HttpOptions) (transport : TransportResult T) :
    (∃ v, (HttpBase.httpBase cfg method url data options transport).result = Except.ok v)
    ∨ (∃ p, (HttpBase.httpBase cfg method url data options transport).result
        = Except.error (Thrown.serverEx p)) := by
  unfold HttpBase.httpBase
  cases h : HttpBase.firstHeaderError method cfg.headers with
  | some e =>
    obtain ⟨p, hp⟩ := handleError_thrown_serverEx cfg e options.showError
      (options.skipServerErrorHandler.getD false)
    exact Or.inr ⟨p, by simp [hp]⟩
  | none =>
    cases transport with
    | success res =>
      by_cases hc : res.code = "OK"
      · exact Or.inl ⟨res.data, by simp [hc]⟩
      · obtain ⟨p, hp⟩ := handleError_thrown_serverEx cfg
          (JsError.serverEx ⟨res.code, res.msg⟩) options.showError
          (options.skipServerErrorHandler.getD false)
        exact Or.inr ⟨p, by simp [hc, hp]⟩
    | failure rs c m =>
      obtain ⟨p, hp⟩ := handleError_thrown_serverEx cfg (JsError.other rs c m) options.showError
        (options.skipServerErrorHandler.getD false)
      exact Or.inr ⟨p, by simp [hp]⟩

end Helpers

/-- C1: every call to `get` or `post` produces exactly one outcome — a
resolved decoded payload or a rejection — and every rejection is the
structured `ServerException` carrying a `{code, msg}` payload; no raw
error crosses the public boundary. -/
theorem get_post_reject_only_with_structured_exception {T R : Type}
    (cfg : GlobalConfig) (url : String) (data : R) (options : HttpOptions)
    (transport : TransportResult T) :
    ((∃ v, (HttpBase.get cfg url options transport).result = Except.ok v)
      ∨ (∃ p, (HttpBase.get cfg url options transport).result
          = Except.error (Thrown.serverEx p)))
    ∧ ((∃ v, (HttpBase.post cfg url data options transport).result = Except.ok v)
      ∨ (∃ p, (HttpBase.post cfg url data options transport).result
          = Except.error (Thrown.serverEx p))) :=
  ⟨httpBase_result_shape cfg "get" url () options transport,
   httpBase_result_shape cfg "post" url data options transport⟩

/-- The options object coming out of a call is the input object with only
`skipServerErrorHandler` re-assigned. -/
theorem httpBase_options_eq {R T : Type} (cfg : GlobalConfig) (method url : String) (data : R)
    (options : HttpOptions) (transport : TransportResult T) :
    (HttpBase.httpBase cfg method url data options transport).options
      = { options with
          skipServerErrorHandler := some (options.skipServerErrorHandler.getD false) } := by
  unfold HttpBase.httpBase
  cases h : HttpBase.firstHeaderError method cfg.headers with
  | some e => simp
  | none => cases transport <;> simp

/-- C10: `httpBase` (hence every `get` and `post` call) mutates the
caller-supplied options object: `skipServerErrorHandler` is overwritten
with `false` whenever it was absent or falsy, before dispatch, and no
other field of the options object is modified. -/
theorem httpBase_mutates_only_skip_flag {R T : Type} (cfg : GlobalConfig) (method url : String)
    (data : R) (options : HttpOptions) (transport : TransportResult T) :
    ((HttpBase.httpBase cfg method url data options transport).options.skipServerErrorHandler
        = some (options.skipServerErrorHandler.getD false))
    ∧ ((options.skipServerErrorHandler = none ∨ options.skipServerErrorHandler = some false) →
        (HttpBase.httpBase cfg method url data options transport).options.skipServerErrorHandler
          = some false)
    ∧ ((HttpBase.httpBase cfg method url data options transport).options.timeout
        = options.timeout)
    ∧ ((HttpBase.httpBase cfg method url data options transport).options.params
        = options.params)
    ∧ ((HttpBase.httpBase cfg method url data options transport).options.showError
        = options.showError)
    ∧ ((HttpBase.httpBase cfg method url data options transport).options.loading
        = options.loading) := by
  have h := httpBase_options_eq cfg method url data options transport
  refine ⟨by rw [h], ?_, by rw [h], by rw [h], by rw [h], by rw [h]⟩
  rintro (hs | hs) <;> rw [h] <;> simp [hs]

/-- C10 witness: a concrete `get` call with the flag absent comes back
with it set to `false` and every other option field untouched. -/
theorem httpBase_mutates_only_skip_flag_witness :
    (HttpBase.httpBase
      { serverBase := "http://api.test", serverPort := none, timeout := none,
        showError := false, loading := none, handleServerError := false, headers := [] }
      "get" "/users" ()
      { timeout := none, params := none, showError := ShowErrorOpt.notSupplied,
        loading := none, skipServerErrorHandler := none }
      (TransportResult.success ⟨"OK", "", (0 : Nat)⟩)).options.skipServerErrorHandler
      = some false :=
  (httpBase_mutates_only_skip_flag _ "get" "/users" ()
    { timeout := none, params := none, showError := ShowErrorOpt.notSupplied,
      loading := none, skipServerErrorHandler := none }
    (TransportResult.success ⟨"OK", "", (0 : Nat)⟩)).2.1 (Or.inl rfl)

/-- C5: evaluating `hideLoading` at the failing input.  With a global
indicator offering both methods, a per-call indicator that has `show` but
lacks `hide` yields NO hide invocation at all — the global-hide fallback
tests the per-call `show` capability (`loading.show === undefined` in the
source) instead of the `hide` capability — while a per-call indicator
lacking `show` as well does fall back to the global `hide`. -/
theorem hideLoading_fallback_checks_show_capability :
    (HttpBase.hideLoading
      { serverBase := "http://api.test", serverPort := none, timeout := none,
        showError := false, loading := some ⟨true, true⟩, handleServerError := false,
        headers := [] }
      (some ⟨true, false⟩) = [])
    ∧ (HttpBase.hideLoading
      { serverBase := "http://api.test", serverPort := none, timeout := none,
        showError := false, loading := some ⟨true, true⟩, handleServerError := false,
        headers := [] }
      (some ⟨false, false⟩) = [Event.globalHide]) :=
  ⟨rfl, rfl⟩

/-- C3 counterexample: with base `http://api.test` and port `80`, the
stored full path already ends in `/`, so `get('/users')` assembles
`http://api.test:80//users/` — a double slash between base and path, not
the single-slash URL the claim requires. -/
theorem url_double_slash_with_port_counterexample :
    HttpBase.buildUrl (HttpBase.serverFullPath "http://api.test" (some "80")) "/users"
      = "http://api.test:80//users/"
    ∧ HttpBase.buildUrl (HttpBase.serverFullPath "http://api.test" (some "80")) "/users"
      ≠ "http://api.test:80/users/" := by
  exact ⟨rfl, by decide⟩

/-- C4 counterexample: a per-call indicator with `show` but no `hide` and
no global indicator — the call invokes `show` once and never invokes any
`hide`, on a perfectly ordinary successful call. -/
theorem loading_show_without_hide_counterexample :
    ((HttpBase.get
      { serverBase := "http://api.test", serverPort := none, timeout := none,
        showError := false, loading := none, handleServerError := false, headers := [] }
      "/users"
      { timeout := none, params := none, showError := ShowErrorOpt.notSupplied,
        loading := some ⟨true, false⟩, skipServerErrorHandler := none }
      (TransportResult.success ⟨"OK", "", (0 : Nat)⟩)).events.countP isShowEvent = 1)
    ∧ ((HttpBase.get
      { serverBase := "http://api.test", serverPort := none, timeout := none,
        showError := false, loading := none, handleServerError := false, headers := [] }
      "/users"
      { timeout := none, params := none, showError := ShowErrorOpt.notSupplied,
        loading := some ⟨true, false⟩, skipServerErrorHandler := none }
      (TransportResult.success ⟨"OK", "", (0 : Nat)⟩)).events.countP isHideEvent = 0) := by
  exact ⟨rfl, rfl⟩

section LoadingCounts

/-- `showError` produces only display events, never loading events. -/
theorem showError_no_loading_events (cfg : GlobalConfig) (m : String) (opt : ShowErrorOpt) :
    (HttpBase.showError cfg m opt).countP isShowEvent = 0
    ∧ (HttpBase.showError cfg m opt).countP isHideEvent = 0 := by
  cases opt with
  | provided =>
    simp [HttpBase.showError, List.countP_cons, isShowEvent, isHideEvent]
  | explicitEmpty =>
    simp [HttpBase.showError]
  | notSupplied =>
    by_cases h : cfg.showError <;>
      simp [HttpBase.showError, h, List.countP_cons, isShowEvent, isHideEvent]

/-- `handleError` produces only display/handler events, never loading events. -/
theorem handleError_no_loading_events (cfg : GlobalConfig) (e : JsError) (opt : ShowErrorOpt)
    (skip : Bool) :
    (HttpBase.handleError cfg e opt skip).2.countP isShowEvent = 0
    ∧ (HttpBase.handleError cfg e opt skip).2.countP isHideEvent = 0 := by
  have h1 := fun m o => (showError_no_loading_events cfg m o).1
  have h2 := fun m o => (showError_no_loading_events cfg m o).2
  cases e with
  | serverEx p =>
    by_cases h : !skip && cfg.handleServerError <;>
      simp [HttpBase.handleError, h, List.countP_append, List.countP_cons,
        isShowEvent, isHideEvent, h1, h2]
  | other rs c m =>
    simp [HttpBase.handleError, List.countP_append, h1, h2]

/-- `showLoading` emits at most one event, and no hide event. -/
theorem showLoading_event_counts (cfg : GlobalConfig) (l : Option LoadingObj) :
    (HttpBase.showLoading cfg l).countP isShowEvent ≤ 1
    ∧ (HttpBase.showLoading cfg l).countP isHideEvent = 0 := by
  unfold HttpBase.showLoading
  split
  · simp [List.countP_cons, isShowEvent, isHideEvent]
  · split
    · simp [List.countP_cons, isShowEvent, isHideEvent]
    · simp

/-- `hideLoading` emits at most one event, and no show event. -/
theorem hideLoading_event_counts (cfg : GlobalConfig) (l : Option LoadingObj) :
    (HttpBase.hideLoading cfg l).countP isHideEvent ≤ 1
    ∧ (HttpBase.hideLoading cfg l).countP isShowEvent = 0 := by
  unfold HttpBase.hideLoading
  split
  · simp [List.countP_cons, isShowEvent, isHideEvent]
  · split
    · simp [List.countP_cons, isShowEvent, isHideEvent]
    · simp

/-- Loading-event counts of a full call, in closed form: zero when a
header resolution fails (the failure is raised before the try/finally),
otherwise exactly what `showLoading` / `hideLoading` emit. -/
theorem httpBase_loading_event_counts {R T : Type} (cfg : GlobalConfig) (method url : String)
    (data : R) (options : HttpOptions) (t : TransportResult T) :
    (HttpBase.httpBase cfg method url data options t).events.countP isShowEvent
      = (match HttpBase.firstHeaderError method cfg.headers with
         | some _ => 0
         | none => (HttpBase.showLoading cfg options.loading).countP isShowEvent)
    ∧ (HttpBase.httpBase cfg method url data options t).events.countP isHideEvent
      = (match HttpBase.firstHeaderError method cfg.headers with
         | some _ => 0
         | none => (HttpBase.hideLoading cfg options.loading).countP isHideEvent) := by
  unfold HttpBase.httpBase
  cases h : HttpBase.firstHeaderError method cfg.headers with
  | some e =>
    simpa using handleError_no_loading_events cfg e options.showError
      (options.skipServerErrorHandler.getD false)
  | none =>
    have hs := showLoading_event_counts cfg options.loading
    have hh := hideLoading_event_counts cfg options.loading
    cases t with
    | success res =>
      by_cases hc : res.code = "OK" <;>
        simp [hc, List.countP_append, hs.2, hh.2,
          (handleError_no_loading_events cfg _ options.showError _).1,
          (handleError_no_loading_events cfg _ options.showError _).2]
    | failure rs c m =>
      simp [List.countP_append, hs.2, hh.2,
        (handleError_no_loading_events cfg _ options.showError _).1,
        (handleError_no_loading_events cfg _ options.showError _).2]

end LoadingCounts

/-- C4 (amended): on every call, a loading `show` is invoked at most once
and a loading `hide` at most once, and those counts do not depend on the
transport outcome — hide runs in the finally block on success and
rejection alike.  Show and hide are NOT always paired: the hide fallback
tests the per-call indicator's `show` capability, and no hide capability
may be selectable at all, so a call can invoke `show` without any `hide`. -/
theorem loading_events_bounded_and_outcome_independent {R T : Type} (cfg : GlobalConfig)
    (method url : String) (data : R) (options : HttpOptions) (t1 t2 : TransportResult T) :
    (HttpBase.httpBase cfg method url data options t1).events.countP isShowEvent ≤ 1
    ∧ (HttpBase.httpBase cfg method url data options t1).events.countP isHideEvent ≤ 1
    ∧ (HttpBase.httpBase cfg method url data options t1).events.countP isShowEvent
        = (HttpBase.httpBase cfg method url data options t2).events.countP isShowEvent
    ∧ (HttpBase.httpBase cfg method url data options t1).events.countP isHideEvent
        = (HttpBase.httpBase cfg method url data options t2).events.countP isHideEvent := by
  obtain ⟨e1s, e1h⟩ := httpBase_loading_event_counts cfg method url data options t1
  obtain ⟨e2s, e2h⟩ := httpBase_loading_event_counts cfg method url data options t2
  have hs := showLoading_event_counts cfg options.loading
  have hh := hideLoading_event_counts cfg options.loading
  refine ⟨?_, ?_, e1s.trans e2s.symm, e1h.trans e2h.symm⟩
  · rw [e1s]
    cases HttpBase.firstHeaderError method cfg.headers
    · exact hs.1
    · simp
  · rw [e1h]
    cases HttpBase.firstHeaderError method cfg.headers
    · exact hh.1
    · simp

/-- C6: a failure carrying an HTTP status and no `ServerException`
envelope rejects with `SERVER_INTERNAL_ERROR` and the server-internal
message for the 5xx family, and with `URL_NOT_FOUND` and the not-found
message for the 4xx family. -/
theorem http_status_family_classification (cfg : GlobalConfig) (opt : ShowErrorOpt) (skip : Bool)
    (status : Nat) (c m : Option String) :
    (500 ≤ status → status ≤ 599 →
      (HttpBase.handleError cfg (JsError.other (some status) c m) opt skip).1
        = Thrown.serverEx ⟨"SERVER_INTERNAL_ERROR", "服务器内部错误"⟩)
    ∧ (400 ≤ status → status ≤ 499 →
      (HttpBase.handleError cfg (JsError.other (some status) c m) opt skip).1
        = Thrown.serverEx ⟨"URL_NOT_FOUND", "URL找不到"⟩) := by
  constructor
  · intro h1 h2
    have hf : status / 100 = 5 := by omega
    simp [HttpBase.handleError, hf]
  · intro h1 h2
    have hf : status / 100 = 4 := by omega
    simp [HttpBase.handleError, hf]

/-- C6 witness: a bare 503 rejects as `SERVER_INTERNAL_ERROR` and a bare
404 rejects as `URL_NOT_FOUND`. -/
theorem http_status_family_classification_witness :
    ((HttpBase.handleError
      { serverBase := "http://api.test", serverPort := none, timeout := none,
        showError := false, loading := none, handleServerError := true, headers := [] }
      (JsError.other (some 503) none none) ShowErrorOpt.notSupplied false).1
        = Thrown.serverEx ⟨"SERVER_INTERNAL_ERROR", "服务器内部错误"⟩)
    ∧ ((HttpBase.handleError
      { serverBase := "http://api.test", serverPort := none, timeout := none,
        showError := false, loading := none, handleServerError := true, headers := [] }
      (JsError.other (some 404) none none) ShowErrorOpt.notSupplied false).1
        = Thrown.serverEx ⟨"URL_NOT_FOUND", "URL找不到"⟩) :=
  ⟨(http_status_family_classification _ ShowErrorOpt.notSupplied false 503 none none).1
      (by decide) (by decide),
   (http_status_family_classification _ ShowErrorOpt.notSupplied false 404 none none).2
      (by decide) (by decide)⟩

/-- C7: with no HTTP status and no envelope, an `ECONNABORTED` code wins
and yields the timeout message; otherwise a message of exactly
`"Network Error"` yields `NETWORK_ERROR`; anything else degrades to
`UNKNOWN_ERROR` with the generic message. -/
theorem no_status_error_classification (cfg : GlobalConfig) (opt : ShowErrorOpt) (skip : Bool) :
    (∀ m : Option String,
      (HttpBase.handleError cfg (JsError.other none (some "ECONNABORTED") m) opt skip).1
        = Thrown.serverEx ⟨"ECONNABORTED", "网络超时"⟩)
    ∧ (∀ c : Option String, c ≠ some "ECONNABORTED" →
      (HttpBase.handleError cfg (JsError.other none c (some "Network Error")) opt skip).1
        = Thrown.serverEx ⟨"NETWORK_ERROR", "无网络, 请检查您的网络连接"⟩)
    ∧ (∀ c m : Option String, c ≠ some "ECONNABORTED" → m ≠ some "Network Error" →
      (HttpBase.handleError cfg (JsError.other none c m) opt skip).1
        = Thrown.serverEx ⟨"UNKNOWN_ERROR", "未知错误"⟩) := by
  refine ⟨fun m => by simp [HttpBase.handleError], fun c hc => ?_, fun c m hc hm => ?_⟩
  · simp [HttpBase.handleError, hc]
  · simp [HttpBase.handleError, hc, hm]

/-- C7 witness: the three classifications at concrete transport errors. -/
theorem no_status_error_classification_witness :
    ((HttpBase.handleError
      { serverBase := "http://api.test", serverPort := none, timeout := none,
        showError := false, loading := none, handleServerError := true, headers := [] }
      (JsError.other none (some "ECONNABORTED") none) ShowErrorOpt.notSupplied false).1
        = Thrown.serverEx ⟨"ECONNABORTED", "网络超时"⟩)
    ∧ ((HttpBase.handleError
      { serverBase := "http://api.test", serverPort := none, timeout := none,
        showError := false, loading := none, handleServerError := true, headers := [] }
      (JsError.other none none (some "Network Error")) ShowErrorOpt.notSupplied false).1
        = Thrown.serverEx ⟨"NETWORK_ERROR", "无网络, 请检查您的网络连接"⟩)
    ∧ ((HttpBase.handleError
      { serverBase := "http://api.test", serverPort := none, timeout := none,
        showError := false, loading := none, handleServerError := true, headers := [] }
      (JsError.other none none (some "socket hang up")) ShowErrorOpt.notSupplied false).1
        = Thrown.serverEx ⟨"UNKNOWN_ERROR", "未知错误"⟩) :=
  ⟨(no_status_error_classification _ ShowErrorOpt.notSupplied false).1 none,
   (no_status_error_classification _ ShowErrorOpt.notSupplied false).2.1 none (by decide),
   (no_status_error_classification _ ShowErrorOpt.notSupplied false).2.2 none
      (some "socket hang up") (by decide) (by decide)⟩

section EventSegments

/-- Every event `showLoading` emits is a loading `show`. -/
theorem showLoading_mem_isShow (cfg : GlobalConfig) (l : Option LoadingObj) :
    ∀ e ∈ HttpBase.showLoading cfg l, isShowEvent e = true := by
  unfold HttpBase.showLoading
  split
  · simp [isShowEvent]
  · split <;> simp [isShowEvent]

/-- Every event `hideLoading` emits is a loading `hide`. -/
theorem hideLoading_mem_isHide (cfg : GlobalConfig) (l : Option LoadingObj) :
    ∀ e ∈ HttpBase.hideLoading cfg l, isHideEvent e = true := by
  unfold HttpBase.hideLoading
  split
  · simp [isHideEvent]
  · split <;> simp [isHideEvent]

/-- Every event `showError` emits is a display of exactly its message. -/
theorem showError_mem_display (cfg : GlobalConfig) (msg : String) (opt : ShowErrorOpt) :
    ∀ e ∈ HttpBase.showError cfg msg opt,
      e = Event.perCallShowError msg ∨ e = Event.globalShowError msg := by
  cases opt with
  | provided => simp [HttpBase.showError]
  | explicitEmpty => simp [HttpBase.showError]
  | notSupplied =>
    by_cases h : cfg.showError <;> simp [HttpBase.showError, h]

/-- `showError` never invokes the global server-error handler. -/
theorem showError_countP_handler (cfg : GlobalConfig) (msg : String) (opt : ShowErrorOpt) :
    (HttpBase.showError cfg msg opt).countP isHandlerEvent = 0 := by
  cases opt with
  | provided => simp [HttpBase.showError, List.countP_cons, isHandlerEvent]
  | explicitEmpty => simp [HttpBase.showError]
  | notSupplied =>
    by_cases h : cfg.showError <;>
      simp [HttpBase.showError, h, List.countP_cons, isHandlerEvent]

/-- `showLoading` and `hideLoading` never display errors nor invoke the
global server-error handler. -/
theorem loading_countP_other (cfg : GlobalConfig) (l : Option LoadingObj) :
    (HttpBase.showLoading cfg l).countP isHandlerEvent = 0
    ∧ (HttpBase.showLoading cfg l).countP isDisplayEvent = 0
    ∧ (HttpBase.hideLoading cfg l).countP isHandlerEvent = 0
    ∧ (HttpBase.hideLoading cfg l).countP isDisplayEvent = 0 := by
  refine ⟨?_, ?_, ?_, ?_⟩ <;>
  · first
    | (unfold HttpBase.showLoading
       split
       · simp [List.countP_cons, isHandlerEvent, isDisplayEvent]
       · split <;> simp [List.countP_cons, isHandlerEvent, isDisplayEvent])
    | (unfold HttpBase.hideLoading
       split
       · simp [List.countP_cons, isHandlerEvent, isDisplayEvent]
       · split <;> simp [List.countP_cons, isHandlerEvent, isDisplayEvent])

end EventSegments

/-- C8: the global server-error handler fires only for logical server
errors.  On `handleError`'s transport branch (any error that is not a
`ServerException`) the handler is never invoked and the side effects are
exactly one error-display dispatch of the resolved message; consequently
a whole call whose transport rejects never invokes the handler. -/
theorem transport_error_never_invokes_global_handler (cfg : GlobalConfig)
    (rs : Option Nat) (c m : Option String) :
    (∀ (opt : ShowErrorOpt) (skip : Bool),
      (HttpBase.handleError cfg (JsError.other rs c m) opt skip).2.countP isHandlerEvent = 0
      ∧ ∃ msg, (HttpBase.handleError cfg (JsError.other rs c m) opt skip).2
          = HttpBase.showError cfg msg opt)
    ∧ (∀ (R T : Type) (method url : String) (data : R) (options : HttpOptions),
        HttpBase.firstHeaderError method cfg.headers = none →
        (HttpBase.httpBase cfg method url data options
          (TransportResult.failure rs c m) : HttpBase.CallResult R T).events.countP
            isHandlerEvent = 0) := by
  constructor
  · intro opt skip
    refine ⟨?_, ⟨_, rfl⟩⟩
    simp [HttpBase.handleError, showError_countP_handler]
  · intro R T method url data options h
    unfold HttpBase.httpBase
    simp only [h]
    have hl := loading_countP_other cfg options.loading
    simp [List.countP_append, hl.1, hl.2.2.1, HttpBase.handleError, showError_countP_handler]

/-- C8 witness: a concrete network-failure call with a configured global
handler never invokes it. -/
theorem transport_error_never_invokes_global_handler_witness :
    (HttpBase.httpBase
      { serverBase := "http://api.test", serverPort := none, timeout := none,
        showError := true, loading := none, handleServerError := true, headers := [] }
      "get" "/users" ()
      { timeout := none, params := none, showError := ShowErrorOpt.notSupplied,
        loading := none, skipServerErrorHandler := none }
      (TransportResult.failure none none (some "Network Error"))
        : HttpBase.CallResult Unit Nat).events.countP isHandlerEvent = 0 :=
  (transport_error_never_invokes_global_handler _ none none (some "Network Error")).2
    Unit Nat "get" "/users" ()
    { timeout := none, params := none, showError := ShowErrorOpt.notSupplied,
      loading := none, skipServerErrorHandler := none } rfl

/-- Logical failure path in closed form: when headers resolve and the
envelope code is not `"OK"`, the call rejects with the envelope's
`{code, msg}` and the trace is show-loading, then the error display, then
the optional global-handler invocation, then hide-loading. -/
theorem httpBase_logical_failure_trace {R T : Type} (cfg : GlobalConfig) (method url : String)
    (data : R) (options : HttpOptions) (env : Envelope T)
    (hH : HttpBase.firstHeaderError method cfg.headers = none)
    (hC : env.code ≠ "OK") :
    ((HttpBase.httpBase cfg method url data options (TransportResult.success env)).result
      = Except.error (Thrown.serverEx ⟨env.code, env.msg⟩))
    ∧ ((HttpBase.httpBase cfg method url data options (TransportResult.success env)).events
      = HttpBase.showLoading cfg options.loading
        ++ (HttpBase.showError cfg env.msg options.showError
            ++ (if !(options.skipServerErrorHandler.getD false) && cfg.handleServerError
                then [Event.serverErrorHandler ⟨env.code, env.msg⟩] else []))
        ++ HttpBase.hideLoading cfg options.loading) := by
  unfold HttpBase.httpBase
  simp only [hH]
  simp [hC, HttpBase.handleError]

/-- C2: a well-formed response with envelope code other than `"OK"`
rejects with a structured exception carrying that code and message; every
error display carries the envelope message, the selected display callback
receives it, and the global server-error handler fires exactly once when
configured unless the per-call skip flag is set. -/
theorem logical_failure_rejects_with_envelope_and_handles {R T : Type} (cfg : GlobalConfig)
    (method url : String) (data : R) (options : HttpOptions) (env : Envelope T)
    (hH : HttpBase.firstHeaderError method cfg.headers = none)
    (hC : env.code ≠ "OK") :
    ((HttpBase.httpBase cfg method url data options (TransportResult.success env)).result
      = Except.error (Thrown.serverEx ⟨env.code, env.msg⟩))
    ∧ (∀ m, Event.perCallShowError m
        ∈ (HttpBase.httpBase cfg method url data options (TransportResult.success env)).events
        → m = env.msg)
    ∧ (∀ m, Event.globalShowError m
        ∈ (HttpBase.httpBase cfg method url data options (TransportResult.success env)).events
        → m = env.msg)
    ∧ (options.showError = ShowErrorOpt.provided →
        Event.perCallShowError env.msg
          ∈ (HttpBase.httpBase cfg method url data options (TransportResult.success env)).events)
    ∧ (options.showError = ShowErrorOpt.notSupplied → cfg.showError = true →
        Event.globalShowError env.msg
          ∈ (HttpBase.httpBase cfg method url data options (TransportResult.success env)).events)
    ∧ ((HttpBase.httpBase cfg method url data options
          (TransportResult.success env)).events.countP isHandlerEvent
        = if options.skipServerErrorHandler.getD false then 0
          else if cfg.handleServerError then 1 else 0) := by
  obtain ⟨hres, hevs⟩ :=
    httpBase_logical_failure_trace cfg method url data options env hH hC
  refine ⟨hres, ?_, ?_, ?_, ?_, ?_⟩
  · intro m hm
    rw [hevs] at hm
    rcases List.mem_append.1 hm with hm | hm
    · rcases List.mem_append.1 hm with hm | hm
      · have := showLoading_mem_isShow cfg options.loading _ hm
        simp [isShowEvent] at this
      · rcases List.mem_append.1 hm with hm | hm
        · rcases showError_mem_display cfg env.msg options.showError _ hm with h | h
          · injection h
          · simp at h
        · split at hm <;> simp_all
    · have := hideLoading_mem_isHide cfg options.loading _ hm
      simp [isHideEvent] at this
  · intro m hm
    rw [hevs] at hm
    rcases List.mem_append.1 hm with hm | hm
    · rcases List.mem_append.1 hm with hm | hm
      · have := showLoading_mem_isShow cfg options.loading _ hm
        simp [isShowEvent] at this
      · rcases List.mem_append.1 hm with hm | hm
        · rcases showError_mem_display cfg env.msg options.showError _ hm with h | h
          · simp at h
          · injection h
        · split at hm <;> simp_all
    · have := hideLoading_mem_isHide cfg options.loading _ hm
      simp [isHideEvent] at this
  · intro hpr
    rw [hevs]
    simp [HttpBase.showError, hpr]
  · intro hns hgl
    rw [hevs]
    simp [HttpBase.showError, hns, hgl]
  · rw [hevs]
    have hl := loading_countP_other cfg options.loading
    by_cases hskip : options.skipServerErrorHandler.getD false <;>
      by_cases hhand : cfg.handleServerError <;>
        simp [List.countP_append, List.countP_cons, hl.1, hl.2.2.1,
          showError_countP_handler, hskip, hhand, isHandlerEvent]

/-- C2 witness: a concrete `"FAIL"` envelope on an ordinary `get` call —
the rejection carries the envelope and the configured global handler
fires exactly once. -/
theorem logical_failure_rejects_with_envelope_and_handles_witness :
    ((HttpBase.httpBase
      { serverBase := "http://api.test", serverPort := none, timeout := none,
        showError := true, loading := none, handleServerError := true, headers := [] }
      "get" "/users" ()
      { timeout := none, params := none, showError := ShowErrorOpt.notSupplied,
        loading := none, skipServerErrorHandler := none }
      (TransportResult.success ⟨"FAIL", "boom", (0 : Nat)⟩)).result
        = Except.error (Thrown.serverEx ⟨"FAIL", "boom"⟩))
    ∧ ((HttpBase.httpBase
      { serverBase := "http://api.test", serverPort := none, timeout := none,
        showError := true, loading := none, handleServerError := true, headers := [] }
      "get" "/users" ()
      { timeout := none, params := none, showError := ShowErrorOpt.notSupplied,
        loading := none, skipServerErrorHandler := none }
      (TransportResult.success ⟨"FAIL", "boom", (0 : Nat)⟩)).events.countP isHandlerEvent
        = 1) :=
  ⟨(logical_failure_rejects_with_envelope_and_handles
      { serverBase := "http://api.test", serverPort := none, timeout := none,
        showError := true, loading := none, handleServerError := true, headers := [] }
      "get" "/users" ()
      { timeout := none, params := none, showError := ShowErrorOpt.notSupplied,
        loading := none, skipServerErrorHandler := none }
      ⟨"FAIL", "boom", (0 : Nat)⟩ rfl (by decide)).1,
   (logical_failure_rejects_with_envelope_and_handles
      { serverBase := "http://api.test", serverPort := none, timeout := none,
        showError := true, loading := none, handleServerError := true, headers := [] }
      "get" "/users" ()
      { timeout := none, params := none, showError := ShowErrorOpt.notSupplied,
        loading := none, skipServerErrorHandler := none }
      ⟨"FAIL", "boom", (0 : Nat)⟩ rfl (by decide)).2.2.2.2.2⟩

/-- C9: error display on a failing call observes the three-way per-call
`showError` distinction — a supplied function is invoked alone with the
message; an unsupplied option falls back to the global callback exactly
when one is configured; an explicitly-supplied falsy option suppresses
both. -/
theorem showError_three_way_distinction {R T : Type} (cfg : GlobalConfig)
    (method url : String) (data : R) (options : HttpOptions) (env : Envelope T)
    (hH : HttpBase.firstHeaderError method cfg.headers = none)
    (hC : env.code ≠ "OK") :
    (options.showError = ShowErrorOpt.provided →
      (HttpBase.httpBase cfg method url data options
        (TransportResult.success env)).events.countP isDisplayEvent = 1
      ∧ Event.perCallShowError env.msg
          ∈ (HttpBase.httpBase cfg method url data options
              (TransportResult.success env)).events)
    ∧ (options.showError = ShowErrorOpt.notSupplied → cfg.showError = true →
      (HttpBase.httpBase cfg method url data options
        (TransportResult.success env)).events.countP isDisplayEvent = 1
      ∧ Event.globalShowError env.msg
          ∈ (HttpBase.httpBase cfg method url data options
              (TransportResult.success env)).events)
    ∧ (options.showError = ShowErrorOpt.notSupplied → cfg.showError = false →
      (HttpBase.httpBase cfg method url data options
        (TransportResult.success env)).events.countP isDisplayEvent = 0)
    ∧ (options.showError = ShowErrorOpt.explicitEmpty →
      (HttpBase.httpBase cfg method url data options
        (TransportResult.success env)).events.countP isDisplayEvent = 0) := by
  obtain ⟨hres, hevs⟩ :=
    httpBase_logical_failure_trace cfg method url data options env hH hC
  have hl := loading_countP_other cfg options.loading
  have hif : ∀ p : ErrPayload,
      (if !(options.skipServerErrorHandler.getD false) && cfg.handleServerError
        then [Event.serverErrorHandler p] else []).countP isDisplayEvent = 0 := by
    intro p
    split <;> simp [List.countP_cons, isDisplayEvent]
  refine ⟨?_, ?_, ?_, ?_⟩
  · intro hpr
    constructor
    · rw [hevs]
      simp [List.countP_append, hl.2.1, hl.2.2.2, hif, HttpBase.showError, hpr,
        List.countP_cons, isDisplayEvent]
      intro a _ _ ha
      subst ha
      rfl
    · rw [hevs]
      simp [HttpBase.showError, hpr]
  · intro hns hgl
    constructor
    · rw [hevs]
      simp [List.countP_append, hl.2.1, hl.2.2.2, hif, HttpBase.showError, hns, hgl,
        List.countP_cons, isDisplayEvent]
      intro a _ _ ha
      subst ha
      rfl
    · rw [hevs]
      simp [HttpBase.showError, hns, hgl]
  · intro hns hgl
    rw [hevs]
    simp [List.countP_append, hl.2.1, hl.2.2.2, hif, HttpBase.showError, hns, hgl]
    intro a _ _ ha
    subst ha
    rfl
  · intro hee
    rw [hevs]
    simp [List.countP_append, hl.2.1, hl.2.2.2, hif, HttpBase.showError, hee]
    intro a _ _ ha
    subst ha
    rfl

/-- C9 witness: with a per-call display callback supplied, a failing call
displays the envelope message through it exactly once. -/
theorem showError_three_way_distinction_witness :
    ((HttpBase.httpBase
      { serverBase := "http://api.test", serverPort := none, timeout := none,
        showError := true, loading := none, handleServerError := false, headers := [] }
      "get" "/users" ()
      { timeout := none, params := none, showError := ShowErrorOpt.provided,
        loading := none, skipServerErrorHandler := none }
      (TransportResult.success ⟨"FAIL", "boom", (0 : Nat)⟩)).events.countP isDisplayEvent = 1)
    ∧ Event.perCallShowError "boom"
        ∈ (HttpBase.httpBase
          { serverBase := "http://api.test", serverPort := none, timeout := none,
            showError := true, loading := none, handleServerError := false, headers := [] }
          "get" "/users" ()
          { timeout := none, params := none, showError := ShowErrorOpt.provided,
            loading := none, skipServerErrorHandler := none }
          (TransportResult.success ⟨"FAIL", "boom", (0 : Nat)⟩)).events :=
  (showError_three_way_distinction
    { serverBase := "http://api.test", serverPort := none, timeout := none,
      showError := true, loading := none, handleServerError := false, headers := [] }
    "get" "/users" ()
    { timeout := none, params := none, showError := ShowErrorOpt.provided,
      loading := none, skipServerErrorHandler := none }
    ⟨"FAIL", "boom", (0 : Nat)⟩ rfl (by decide)).1 rfl

/-- C3 (amended): with NO port configured, a base not ending in `/` and a
path beginning with a single `/` (and no doubled trailing slash), the
assembled URL is the base, exactly one separating `/`, the path remainder,
and exactly one trailing `/`.  (With a port configured the stored base
already ends in `/`, so a `/`-leading path produces a double slash — see
the counterexample — and a path without a leading `/` against a port-less
base would get no separator at all.) -/
theorem url_single_separator_amended (b p : String)
    (hb : b.data.getLast? ≠ some '/')
    (hp1 : p.data.head? = some '/')
    (hp2 : p.data.tail.head? ≠ some '/')
    (hp3 : p.data.dropLast.getLast? ≠ some '/') :
    ∃ rest : List Char,
      (HttpBase.buildUrl (HttpBase.serverFullPath b none) p).data = b.data ++ '/' :: rest
      ∧ rest.head? ≠ some '/'
      ∧ (HttpBase.buildUrl (HttpBase.serverFullPath b none) p).data.getLast? = some '/'
      ∧ (HttpBase.buildUrl (HttpBase.serverFullPath b none) p).data.dropLast.getLast?
          ≠ some '/' := by
  obtain ⟨t, ht⟩ : ∃ t, p.data = '/' :: t := by
    cases hq : p.data with
    | nil => rw [hq] at hp1; simp at hp1
    | cons c r =>
      rw [hq] at hp1
      simp at hp1
      exact ⟨r, by rw [hp1]⟩
  have hp2t : t.head? ≠ some '/' := by simpa [ht] using hp2
  by_cases hend : p.data.getLast? = some '/'
  · have hjs : jsEndsWithSlash p = true := by simp [jsEndsWithSlash, hend]
    have hurl : (HttpBase.buildUrl (HttpBase.serverFullPath b none) p).data
        = b.data ++ p.data := by
      simp [HttpBase.buildUrl, HttpBase.serverFullPath, hjs]
    refine ⟨t, ?_, hp2t, ?_, ?_⟩
    · rw [hurl, ht]
    · rw [hurl, List.getLast?_append_of_ne_nil _ (by rw [ht]; simp)]
      exact hend
    · rw [hurl, List.dropLast_append_of_ne_nil _ (by rw [ht]; simp)]
      by_cases hdl : p.data.dropLast = []
      · rw [hdl]
        simpa using hb
      · rw [List.getLast?_append_of_ne_nil _ hdl]
        exact hp3
  · have hjs : jsEndsWithSlash p = false := by simp [jsEndsWithSlash, hend]
    have hurl : (HttpBase.buildUrl (HttpBase.serverFullPath b none) p).data
        = b.data ++ p.data ++ ['/'] := by
      simp [HttpBase.buildUrl, HttpBase.serverFullPath, hjs]
    have ht' : t ≠ [] := by
      intro h0
      rw [ht, h0] at hend
      simp at hend
    refine ⟨t ++ ['/'], ?_, ?_, ?_, ?_⟩
    · rw [hurl, ht]
      simp
    · rw [List.head?_append_of_ne_nil _ ht']
      exact hp2t
    · rw [hurl]
      exact List.getLast?_concat _
    · rw [hurl, List.dropLast_concat, List.getLast?_append_of_ne_nil _ (by rw [ht]; simp)]
      exact hend

/-- C3 (amended) witness: `get('/users')` against base `http://api.test`
with no port yields exactly `http://api.test/users/`, with a single
separating slash and a single trailing slash. -/
theorem url_single_separator_amended_witness :
    HttpBase.buildUrl (HttpBase.serverFullPath "http://api.test" none) "/users"
      = "http://api.test/users/"
    ∧ ∃ rest : List Char,
      (HttpBase.buildUrl (HttpBase.serverFullPath "http://api.test" none) "/users").data
        = "http://api.test".data ++ '/' :: rest
      ∧ rest.head? ≠ some '/'
      ∧ (HttpBase.buildUrl
          (HttpBase.serverFullPath "http://api.test" none) "/users").data.getLast? = some '/'
      ∧ (HttpBase.buildUrl
          (HttpBase.serverFullPath "http://api.test" none) "/users").data.dropLast.getLast?
          ≠ some '/' :=
  ⟨rfl, url_single_separator_amended "http://api.test" "/users"
    (by decide) (by decide) (by decide) (by decide)⟩
